import Mathlib

/-
Verification of the CDSS StateMod time-series codec and dataset visibility
logic, shallowly embedded from the Python sources:

  src/DWR/StateMod/StateMod_TS.py       (interval detector, precision selector,
                                         monthly reader, XOP reader, writer)
  src/DWR/StateMod/StateMod_DataSet.py  (check_component_visibility)
  src/DWR/StateMod/StateMod_Util.py     (isMissing)

Python strings are modelled as Lean String (newline-stripped line contents),
floats as exact rationals, raised exceptions as Option/Except failures.
External RTi library helpers (StringUtil, DateTime, YearType, TimeInterval)
are not part of this repository; they are modelled by small definitions whose
doc comments state the modelled behaviour.
-/

set_option maxRecDepth 10000

namespace CDSS

/-- Result of the file-interval detector.  The numeric `TimeInterval.DAY`,
`TimeInterval.MONTH` constants live in the external RTi library, so the
detector result (`-999`, DAY or MONTH) is modelled as an enumeration. -/
inductive DetectedInterval
  | unknown
  | day
  | month
deriving DecidableEq, Repr

/-- The RTi `YearType` enumeration values used by `StateMod_TS`
(calendar, water = Oct-Sep, Nov-to-Oct). -/
inductive YearType
  | calendar
  | water
  | novToOct
deriving DecidableEq, Repr

/-- Python exception kinds that the embedded code can raise. -/
inductive PyErr
  | valueError
  | indexError
  | typeError
  | attributeError
  | unboundLocalError
deriving DecidableEq, Repr

/-- Whitespace characters removed by Python `str.strip()`. -/
def isPySpace (c : Char) : Bool :=
  c = ' ' || c = '\t' || c = '\n' || c = '\r' || c = '\x0b' || c = '\x0c'

/-- Python `str.strip()` on a character list. -/
def stripL (cs : List Char) : List Char :=
  ((cs.dropWhile isPySpace).reverse.dropWhile isPySpace).reverse

/-- Python `str.strip()`. -/
def pyStrip (s : String) : String := String.mk (stripL s.toList)

/-- Python `str.upper()` (ASCII, which covers all strings in these files). -/
def pyUpperChar (c : Char) : Char :=
  if 'a' ≤ c ∧ c ≤ 'z' then Char.ofNat (c.toNat - 32) else c

/-- Python `str.upper()`. -/
def pyUpper (s : String) : String := String.mk (s.toList.map pyUpperChar)

/-- Python slice `s[a:b]` (character-based, clamping at the ends). -/
def pySlice (s : String) (a b : Nat) : String :=
  String.mk ((s.toList.drop a).take (b - a))

/-- Does the character list start with the given pattern? -/
def startsWithL : List Char → List Char → Bool
  | [], _ => true
  | _ :: _, [] => false
  | p :: ps, c :: cs => p = c && startsWithL ps cs

/-- Does the character list contain the pattern as a contiguous run? -/
def containsL (pat : List Char) : List Char → Bool
  | [] => pat.isEmpty
  | c :: rest => startsWithL pat (c :: rest) || containsL pat rest

/-- Python `pat in hay` (substring test). -/
def strHas (hay pat : String) : Bool := containsL pat.toList hay.toList

/-- Python `s.startswith(pat)`. -/
def pyStarts (s pat : String) : Bool := startsWithL pat.toList s.toList

/-- Python `s.endswith(pat)`. -/
def pyEnds (s pat : String) : Bool := startsWithL pat.toList.reverse s.toList.reverse

/-- Accumulate decimal digits into a natural number. -/
def digitsToNat : List Char → Nat → Nat
  | [], acc => acc
  | c :: rest, acc => digitsToNat rest (acc * 10 + (c.toNat - '0'.toNat))

/-- Are all characters decimal digits? -/
def allDigits (cs : List Char) : Bool := cs.all (fun c => '0' ≤ c && c ≤ '9')

/-- Python `int(s)`: strip, optional sign, one or more digits; `none` models
the `ValueError` raised on anything else.  (Underscore separators and
non-ASCII digits do not occur in StateMod files and are not modelled.) -/
def pyInt (s : String) : Option Int :=
  let cs := stripL s.toList
  match cs with
  | '+' :: rest => if !rest.isEmpty && allDigits rest then some (digitsToNat rest 0) else none
  | '-' :: rest => if !rest.isEmpty && allDigits rest then some (-(digitsToNat rest 0 : Int)) else none
  | _ => if !cs.isEmpty && allDigits cs then some (digitsToNat cs 0) else none

/-- An unsigned decimal literal `intPart.fracPart` as an exact rational
(an empty fraction part is the plain integer). -/
def decToRat (intPart fracPart : List Char) : ℚ :=
  if fracPart.isEmpty then (digitsToNat intPart 0 : ℚ)
  else (digitsToNat intPart 0 : ℚ) + (digitsToNat fracPart 0 : ℚ) / (10 : ℚ) ^ fracPart.length

/-- The unsigned core of a Python float literal: digits with an optional
fraction part, at least one digit overall. -/
def pyFloatCore (cs : List Char) : Option ℚ :=
  match cs.span (fun c => '0' ≤ c && c ≤ '9') with
  | (ip, []) => if ip.isEmpty then none else some (decToRat ip [])
  | (ip, '.' :: fp) =>
      if (ip.isEmpty && fp.isEmpty) || !allDigits fp then none else some (decToRat ip fp)
  | _ => none

/-- Python `float(s)` restricted to the decimal forms appearing in StateMod
files (optional sign, digits, optional fraction); values are modelled as exact
rationals and `none` models the `ValueError` on garbage.  Exponent notation,
`inf` and `nan` do not occur in these fixed-width files and are not modelled. -/
def pyFloat (s : String) : Option ℚ :=
  let cs := stripL s.toList
  match cs with
  | '+' :: rest => pyFloatCore rest
  | '-' :: rest => (pyFloatCore rest).map (fun q => -q)
  | _ => pyFloatCore cs

/-- One integer field of a `StringUtil.fixed_read` format.  Modelled from the
spec (RTi `StringUtil` is an external dependency): a field running past the end
of the line is read from whatever characters remain, a blank numeric field is
0, and a non-numeric field raises (`none`). -/
def intField (cs : List Char) (a b : Nat) : Option Int :=
  let f := stripL ((cs.drop a).take (b - a))
  if f.isEmpty then some 0 else pyInt (String.mk f)

/-- One double field of a `StringUtil.fixed_read` format, with the same
conventions as `intField`. -/
def ratField (cs : List Char) (a b : Nat) : Option ℚ :=
  let f := stripL ((cs.drop a).take (b - a))
  if f.isEmpty then some 0 else pyFloat (String.mk f)

/-- One string field of a `StringUtil.fixed_read` format. -/
def strField (cs : List Char) (a b : Nat) : String :=
  String.mk ((cs.drop a).take (b - a))

/-- `StateMod_TS.get_precision`.  The `exp_saved`/`largest_number_saved` cache
in the source returns exactly the value that would be recomputed for the same
`exp`, so the function is modelled as the equivalent pure computation.  The
special-offset branch (`|req_precision| > 1000`) performs Python true division
by 1000 (producing a float); it is modelled with integer division and no claim
exercises it. -/
def getPrecision (reqPrecision width : ℤ) (value : ℚ) : ℤ :=
  let req := if reqPrecision > 1000 ∨ reqPrecision * (-1) > 1000
             then reqPrecision / 1000 else reqPrecision
  if req ≥ 0 then req
  else
    let exp : ℤ := if value < 0 then width + req - 2 else width + req - 1
    let largestNumber : ℚ := (10 : ℚ) ^ exp - 1
    let plusValue : ℚ := if value > 0 then value else value * (-1)
    if plusValue ≤ largestNumber then req * (-1) else 0

/-- C6: for `-1000 < p ≤ 1000` (so that the special-offset handling is not
triggered), `get_precision` returns `p` unchanged when `p ≥ 0`; for `p < 0` it
returns `-p` exactly when `|v|` fits below `10^(w+p-1) - 1` (nonnegative `v`)
resp. `10^(w+p-2) - 1` (negative `v`, one column reserved for the sign), and
`0` otherwise. -/
theorem getPrecision_spec (p w : ℤ) (v : ℚ) (hlo : -1000 < p) (hhi : p ≤ 1000) :
    (0 ≤ p → getPrecision p w v = p) ∧
    (p < 0 →
      ((0 ≤ v →
          ((|v| ≤ 10 ^ (w + p - 1) - 1 → getPrecision p w v = -p) ∧
           (¬ |v| ≤ 10 ^ (w + p - 1) - 1 → getPrecision p w v = 0))) ∧
       (v < 0 →
          ((|v| ≤ 10 ^ (w + p - 2) - 1 → getPrecision p w v = -p) ∧
           (¬ |v| ≤ 10 ^ (w + p - 2) - 1 → getPrecision p w v = 0))))) := by
  have hspecial : ¬ (p > 1000 ∨ p * (-1) > 1000) := by omega
  constructor
  · intro hp
    simp only [getPrecision, if_neg hspecial, ge_iff_le, if_pos hp]
  · intro hp
    have hneg : ¬ (0 : ℤ) ≤ p := by omega
    constructor
    · intro hv
      have hvlt : ¬ v < 0 := not_lt.mpr hv
      have habs : (if v > 0 then v else v * (-1)) = |v| := by
        rcases lt_or_eq_of_le hv with h | h
        · rw [if_pos h, abs_of_pos h]
        · rw [← h]; norm_num
      constructor
      · intro hfit
        simp only [getPrecision, if_neg hspecial, ge_iff_le, if_neg hneg, if_neg hvlt, habs]
        rw [if_pos hfit]; ring
      · intro hfit
        simp only [getPrecision, if_neg hspecial, ge_iff_le, if_neg hneg, if_neg hvlt, habs]
        rw [if_neg hfit]
    · intro hv
      have habs : (if v > 0 then v else v * (-1)) = |v| := by
        have : ¬ v > 0 := by linarith
        rw [if_neg this, abs_of_neg hv]; ring
      constructor
      · intro hfit
        simp only [getPrecision, if_neg hspecial, ge_iff_le, if_neg hneg, if_pos hv, habs]
        rw [if_pos hfit]; ring
      · intro hfit
        simp only [getPrecision, if_neg hspecial, ge_iff_le, if_neg hneg, if_pos hv, habs]
        rw [if_neg hfit]

/-- Witness for C6: the default precision -2 on an 8-wide column keeps two
decimals for 1234.12 (|v| ≤ 99999). -/
theorem getPrecision_spec_witness :
    (-1000 : ℤ) < -2 ∧ (-2 : ℤ) ≤ 1000 ∧ getPrecision (-2) 8 (1234.12 : ℚ) = 2 := by
  refine ⟨by norm_num, by norm_num, ?_⟩
  have h := ((getPrecision_spec (-2) 8 (1234.12 : ℚ) (by norm_num) (by norm_num)).2
    (by norm_num)).1 (by norm_num)
  have hfit : |(1234.12 : ℚ)| ≤ 10 ^ ((8 : ℤ) + -2 - 1) - 1 := by
    rw [show ((8 : ℤ) + -2 - 1) = 5 by norm_num, abs_of_nonneg (by norm_num)]
    norm_num
  simpa using h.1 hfit

/-! ## File data interval detector (`StateMod_TS.get_file_data_interval`) -/

/-- Comment/blank skip loop of `get_file_data_interval` for non-XOP files:
index of the first line whose stripped content is nonempty and does not start
with `#`; `none` models the `IndexError` raised when the scan runs off the end
of `lines` (caught by the enclosing `except`). -/
def firstHeaderIdx : List String → Nat → Option Nat
  | [], _ => none
  | l :: rest, i =>
      match stripL l.toList with
      | [] => firstHeaderIdx rest (i + 1)
      | c :: _ => if c = '#' then firstHeaderIdx rest (i + 1) else some i

/-- Non-XOP branch of `get_file_data_interval` (the body of the `try`): skip
comments and blank lines, take the next line as the first data line and
classify it by stripped length; `none` models an exception. -/
def scanRegularLines (lines : List String) : Option DetectedInterval :=
  match firstHeaderIdx lines 0 with
  | none => none
  | some k =>
      match lines[k + 1]? with
      | none => none
      | some dl =>
          some (if 150 < (stripL dl.toList).length then DetectedInterval.day
                else DetectedInterval.month)

/-- XOP branch of `get_file_data_interval` (the body of the `try`): scan for a
comment line naming the time step.  On a comment line the source evaluates
`iline.upper().index("TIME STEP:")`, which raises `ValueError` (`none` here)
when the marker is absent; the additional `> 0` index check always holds on a
comment line because character 0 is `#`.  A marker value other than
MONTHLY/DAILY keeps scanning; running out of lines leaves the initial -999. -/
def scanXopLines : List String → Option DetectedInterval
  | [] => some DetectedInterval.unknown
  | l :: rest =>
      if pyStarts l "#" then
        if strHas (pyUpper l) "TIME STEP:" then
          match (l.splitOn ":").get? 1 with
          | none => scanXopLines rest
          | some part =>
              if pyUpper (pyStrip part) = "MONTHLY" then some DetectedInterval.month
              else if pyUpper (pyStrip part) = "DAILY" then some DetectedInterval.day
              else scanXopLines rest
        else none
      else scanXopLines rest

/-- `StateMod_TS.get_file_data_interval`.  The file system is modelled by the
`file` argument: `none` when the file cannot be opened, otherwise the
newline-stripped lines.  Every exception raised while scanning is caught by
the source's blanket `except` and turned into -999, modelled by mapping a
`none` scan result to `DetectedInterval.unknown`. -/
def getFileDataInterval (filename : String) (file : Option (List String)) :
    DetectedInterval :=
  match file with
  | none => DetectedInterval.unknown
  | some lines =>
      let scanned := if pyEnds (pyUpper filename) "XOP" then scanXopLines lines
                     else scanRegularLines lines
      match scanned with
      | none => DetectedInterval.unknown
      | some r => r

/-- `scanXopLines` raises (`none`) as soon as it meets the first comment line
when that line lacks the `TIME STEP:` marker. -/
theorem scanXopLines_first_comment_no_marker (pre : List String) (l : String)
    (rest : List String) (hpre : ∀ p ∈ pre, pyStarts p "#" = false)
    (hl : pyStarts l "#" = true) (hm : strHas (pyUpper l) "TIME STEP:" = false) :
    scanXopLines (pre ++ l :: rest) = none := by
  induction pre with
  | nil => simp [scanXopLines, hl, hm]
  | cons p ps ih =>
      have hp : pyStarts p "#" = false := hpre p (by simp)
      have hps : ∀ q ∈ ps, pyStarts q "#" = false := fun q hq => hpre q (by simp [hq])
      simpa [scanXopLines, hp] using ih hps

/-- C10: the interval detector is total, returning -999 (unknown) when the
file cannot be opened, when it is empty, when no line follows the header, and
when an XOP scan hits a first comment line without a `Time Step:` marker;
for a non-XOP file with a line after the header it classifies by the 150
character threshold on the trimmed first data line. -/
theorem getFileDataInterval_spec :
    (∀ fn, getFileDataInterval fn none = DetectedInterval.unknown) ∧
    (∀ fn, getFileDataInterval fn (some []) = DetectedInterval.unknown) ∧
    (∀ fn lines, pyEnds (pyUpper fn) "XOP" = false →
        firstHeaderIdx lines 0 = none →
        getFileDataInterval fn (some lines) = DetectedInterval.unknown) ∧
    (∀ fn lines k, pyEnds (pyUpper fn) "XOP" = false →
        firstHeaderIdx lines 0 = some k →
        lines[k + 1]? = none →
        getFileDataInterval fn (some lines) = DetectedInterval.unknown) ∧
    (∀ fn lines k dl, pyEnds (pyUpper fn) "XOP" = false →
        firstHeaderIdx lines 0 = some k →
        lines[k + 1]? = some dl →
        getFileDataInterval fn (some lines) =
          (if 150 < (stripL dl.toList).length then DetectedInterval.day
           else DetectedInterval.month)) ∧
    (∀ fn pre l rest, pyEnds (pyUpper fn) "XOP" = true →
        (∀ p ∈ pre, pyStarts p "#" = false) →
        pyStarts l "#" = true →
        strHas (pyUpper l) "TIME STEP:" = false →
        getFileDataInterval fn (some (pre ++ l :: rest)) = DetectedInterval.unknown) := by
  refine ⟨fun fn => rfl, ?_, ?_, ?_, ?_, ?_⟩
  · intro fn
    cases hx : pyEnds (pyUpper fn) "XOP" <;>
      simp [getFileDataInterval, hx, scanXopLines, scanRegularLines, firstHeaderIdx]
  · intro fn lines hx h
    simp [getFileDataInterval, hx, scanRegularLines, h]
  · intro fn lines k hx hk h
    simp [getFileDataInterval, hx, scanRegularLines, hk, h]
  · intro fn lines k dl hx hk h
    simp [getFileDataInterval, hx, scanRegularLines, hk, h]
  · intro fn pre l rest hx hpre hl hm
    simp [getFileDataInterval, hx, scanXopLines_first_comment_no_marker pre l rest hpre hl hm]

/-- Witness for C10: concrete evaluations through `getFileDataInterval_spec`:
an all-comment file yields -999, a header plus short data line is monthly, and
an XOP file whose first comment line lacks the marker yields -999. -/
theorem getFileDataInterval_spec_witness :
    getFileDataInterval "a.stm" (some ["# only comments"]) = DetectedInterval.unknown ∧
    getFileDataInterval "m.stm" (some ["HDR", "DATA"]) = DetectedInterval.month ∧
    getFileDataInterval "test.xop" (some ["# hello"]) = DetectedInterval.unknown := by
  refine ⟨?_, ?_, ?_⟩
  · exact getFileDataInterval_spec.2.2.1 "a.stm" ["# only comments"] (by decide) (by decide)
  · have h := getFileDataInterval_spec.2.2.2.2.1 "m.stm" ["HDR", "DATA"] 0 "DATA"
      (by decide) (by decide) (by decide)
    simpa using h
  · exact getFileDataInterval_spec.2.2.2.2.2 "test.xop" [] "# hello" []
      (by decide) (by intro p hp; cases hp) (by decide) (by decide)

/-! ## Monthly writer line totals (`write_time_series_list`, `get_line_total`) -/

/-- Rounding to an integer with the halfway case going to the even neighbour,
as Python float formatting does for exactly representable halves; values are
modelled as exact rationals. -/
def roundHalfEven (x : ℚ) : ℤ :=
  if x - ⌊x⌋ < 1 / 2 then ⌊x⌋
  else if 1 / 2 < x - ⌊x⌋ then ⌊x⌋ + 1
  else if ⌊x⌋ % 2 = 0 then ⌊x⌋ else ⌊x⌋ + 1

/-- Formatting a value with `"%#w.pf"` through `StringUtil.format_string` and
re-parsing it with `float(...)`: Python `%`-formatting never truncates to the
width, so the round trip is rounding to `p` decimal places. -/
def fmtPrec (p : Nat) (x : ℚ) : ℚ := (roundHalfEven (x * 10 ^ p) : ℚ) / 10 ^ p

/-- `write_time_series_list` lines 1371-1382: units for which the annual value
is a total; for all other units it is an average. -/
def doTotalForUnits (outputUnits : String) : Bool :=
  pyUpper outputUnits = "AF" || pyUpper outputUnits = "ACFT" ||
  pyUpper outputUnits = "AF/M" || pyUpper outputUnits = "IN" ||
  pyUpper outputUnits = "MM"

/-- Inputs of one monthly output line of `write_time_series_list`: the twelve
values fetched from the series in output-calendar order (`none` where
`ts.is_data_missing` holds), the requested precision, the series' in-memory
missing value, the printed `missing_dv` sentinel, and the total/average flag
derived from the output units. -/
structure MonthLine where
  reqPrecision : ℤ
  tsMissing : ℚ
  missingDv : ℚ
  doTotal : Bool
  vals : List (Option ℚ)

/-- The per-month (value, precision) pairs appended to `iline_v` and
`iline_format_v` by the monthly writer loop (lines 1736-1757): the 8-wide
precision is selected from the in-memory value (for a missing month from the
series missing value itself) and a missing month prints the `missing_dv`
sentinel.  `toNat` reflects the list indexing `format8_for_precision[p]`,
which requires a nonnegative precision. -/
def monthEntries (L : MonthLine) : List (ℚ × ℕ) :=
  L.vals.map (fun ov =>
    match ov with
    | some v => (v, (getPrecision L.reqPrecision 8 v).toNat)
    | none => (L.missingDv, (getPrecision L.reqPrecision 8 L.tsMissing).toNat))

/-- The line values exactly as printed and re-parsed, as `get_line_total`
computes them with `do_sum_to_printed` (lines 180-182). -/
def printedVals (L : MonthLine) : List ℚ :=
  (monthEntries L).map (fun e => fmtPrec e.2 e.1)

/-- `ts.is_data_missing(v)` modelled as equality with the series missing
value (the RTi implementation accepts a narrow band around -999; the exact
sentinel is what occurs on these lines). -/
def isDataMissing (tsMissing v : ℚ) : Bool := v = tsMissing

/-- The printed values that survive the `is_data_missing` filter inside
`get_line_total` (line 183). -/
def printedNonMissing (L : MonthLine) : List ℚ :=
  (printedVals L).filter (fun v => !(isDataMissing L.tsMissing v))

/-- `StateMod_TS.get_line_total` for a monthly line with
`do_sum_to_printed=True`: sum and count are recomputed from the printed
values; an all-missing line yields `ts.get_missing()`, otherwise the sum
(`do_total`) or the mean (lines 186-196). -/
def getLineTotal (L : MonthLine) : ℚ :=
  if (printedNonMissing L).length = 0 then L.tsMissing
  else if L.doTotal then (printedNonMissing L).sum
  else (printedNonMissing L).sum / (printedNonMissing L).length

/-- The in-memory `annual_sum` accumulated over non-missing values
(line 1754). -/
def annualSum (L : MonthLine) : ℚ := (L.vals.filterMap id).sum

/-- Precision selected for the 10-wide total column from the in-memory annual
sum (lines 1760-1763). -/
def totalPrec (L : MonthLine) : ℕ :=
  (getPrecision L.reqPrecision 10 (annualSum L)).toNat

/-- The total/average column exactly as printed on the line and re-parsed:
`get_line_total`'s result formatted with `format10_for_precision[...]`
(lines 1764-1772). -/
def printedTotal (L : MonthLine) : ℚ := fmtPrec (totalPrec L) (getLineTotal L)

/-- The reduction stated by the claim, following the spec's words: the sum
(volumetric units) or the mean (otherwise) of the non-missing per-month values
exactly as printed on the line, each re-parsed as a float. -/
def specLineReduce (L : MonthLine) : ℚ :=
  if L.doTotal then (printedNonMissing L).sum
  else (printedNonMissing L).sum / (printedNonMissing L).length

/-- A concrete line in non-volumetric units (so the annual value is a mean):
printed values 1.00, 0.00, 0.00 and nine missing months at the default
requested precision -2. -/
def c1Line : MonthLine :=
  { reqPrecision := -2, tsMissing := -999, missingDv := -999,
    doTotal := doTotalForUnits "CFS",
    vals := [some 1, some 0, some 0, none, none, none, none, none, none,
             none, none, none] }

/-- Rounding an integer gives it back. -/
theorem roundHalfEven_intCast (n : ℤ) : roundHalfEven (n : ℚ) = n := by
  unfold roundHalfEven
  rw [Int.floor_intCast]
  norm_num

/-- When `x * 10^p` is an integer, decimal rounding is exact. -/
theorem fmtPrec_exact (p : ℕ) (n : ℤ) (x : ℚ) (h : x * 10 ^ p = (n : ℚ)) :
    fmtPrec p x = x := by
  unfold fmtPrec
  rw [h, roundHalfEven_intCast, ← h]
  field_simp

/-- `get_precision` at the default -2 with an 8-wide column and a value of
magnitude at most 99999: two decimals. -/
theorem getPrecision_neg2_8 (v : ℚ) (h1 : -9999 ≤ v) (h2 : v ≤ 99999) :
    getPrecision (-2) 8 v = 2 := by
  unfold getPrecision
  norm_num
  split_ifs <;> linarith

/-- `get_precision` at the default -2 with the 10-wide total column and a
nonnegative sum of magnitude at most 9999999: two decimals. -/
theorem getPrecision_neg2_10 (v : ℚ) (h1 : -999999 ≤ v) (h2 : v ≤ 9999999) :
    getPrecision (-2) 10 v = 2 := by
  unfold getPrecision
  norm_num
  split_ifs <;> linarith

/-- The printed non-missing values of the concrete line are 1.00, 0.00, 0.00. -/
theorem printedNonMissing_c1 : printedNonMissing c1Line = [1, 0, 0] := by
  have g1 : getPrecision (-2) 8 (1 : ℚ) = 2 := getPrecision_neg2_8 1 (by norm_num) (by norm_num)
  have g0 : getPrecision (-2) 8 (0 : ℚ) = 2 := getPrecision_neg2_8 0 (by norm_num) (by norm_num)
  have gm9 : getPrecision (-2) 8 (-999 : ℚ) = 2 :=
    getPrecision_neg2_8 (-999) (by norm_num) (by norm_num)
  have f1 : fmtPrec 2 (1 : ℚ) = 1 := fmtPrec_exact 2 100 1 (by norm_num)
  have f0 : fmtPrec 2 (0 : ℚ) = 0 := fmtPrec_exact 2 0 0 (by norm_num)
  have fm9 : fmtPrec 2 (-999 : ℚ) = -999 := fmtPrec_exact 2 (-99900) (-999) (by norm_num)
  have hPV : printedVals c1Line =
      [1, 0, 0, -999, -999, -999, -999, -999, -999, -999, -999, -999] := by
    simp only [printedVals, monthEntries, c1Line, List.map_cons, List.map_nil, g1, g0, gm9]
    simp only [show ((2 : ℤ).toNat) = 2 from rfl]
    simp only [f1, f0, fm9]
  rw [printedNonMissing, hPV, show c1Line.tsMissing = -999 from rfl]
  norm_num [isDataMissing, List.filter_cons, List.filter_nil]

/-- The claim total for the concrete line: the mean 1/3 printed as 0.33. -/
theorem printedTotal_c1 : printedTotal c1Line = 33 / 100 := by
  have hdo : c1Line.doTotal = false := by rfl
  have hlt : getLineTotal c1Line = 1 / 3 := by
    simp only [getLineTotal, printedNonMissing_c1, hdo]
    norm_num [List.sum_cons, List.sum_nil]
  have hsum : annualSum c1Line = 1 := by
    norm_num [annualSum, c1Line, List.filterMap_cons, List.filterMap_nil]
  have hTP : totalPrec c1Line = 2 := by
    simp only [totalPrec, hsum, show c1Line.reqPrecision = -2 from rfl,
      getPrecision_neg2_10 1 (by norm_num) (by norm_num)]
    rfl
  have hr : roundHalfEven (100 / 3 : ℚ) = 33 := by
    have hfloor : ⌊(100 / 3 : ℚ)⌋ = 33 := by
      rw [Int.floor_eq_iff]; norm_num
    unfold roundHalfEven
    rw [hfloor]
    norm_num
  simp only [printedTotal, hTP, hlt, fmtPrec]
  rw [show ((1 : ℚ) / 3 * 10 ^ 2) = 100 / 3 by norm_num, hr]
  norm_num

/-- C1 counterexample: for the units "CFS" the line total is a mean; the mean
of the printed values 1.00, 0.00, 0.00 is 1/3, but the printed total column
carries 0.33, which differs from 1/3 by 1/300 > 1e-6. -/
theorem printedTotal_1e6_counterexample :
    doTotalForUnits "CFS" = false ∧
    ¬ |printedTotal c1Line - specLineReduce c1Line| < 1 / 1000000 := by
  have hred : specLineReduce c1Line = 1 / 3 := by
    simp only [specLineReduce, printedNonMissing_c1, show c1Line.doTotal = false from rfl]
    norm_num [List.sum_cons, List.sum_nil]
  refine ⟨rfl, ?_⟩
  rw [printedTotal_c1, hred, show (33 / 100 - 1 / 3 : ℚ) = -(1 / 300) by norm_num, abs_neg,
    abs_of_pos (by norm_num)]
  norm_num

/-- Integer rounding moves a value by at most one half. -/
theorem abs_roundHalfEven_sub_le (x : ℚ) : |(roundHalfEven x : ℚ) - x| ≤ 1 / 2 := by
  have hf : (⌊x⌋ : ℚ) ≤ x := Int.floor_le x
  have hf2 : x < ⌊x⌋ + 1 := Int.lt_floor_add_one x
  unfold roundHalfEven
  split_ifs with h1 h2 h3
  · rw [abs_le]; constructor <;> linarith
  · rw [abs_le]; constructor <;> push_cast <;> linarith
  · push_neg at h1 h2
    rw [abs_le]; constructor <;> linarith
  · push_neg at h1 h2
    rw [abs_le]; constructor <;> push_cast <;> linarith

/-- Rounding to `p` decimal places moves a value by at most half a unit in the
last place. -/
theorem abs_fmtPrec_sub_le (p : ℕ) (x : ℚ) :
    |fmtPrec p x - x| ≤ 1 / (2 * 10 ^ p) := by
  have h10 : (0 : ℚ) < 10 ^ p := by positivity
  have key : fmtPrec p x - x =
      ((roundHalfEven (x * 10 ^ p) : ℚ) - x * 10 ^ p) / 10 ^ p := by
    field_simp [fmtPrec]
    ring
  rw [key, abs_div, abs_of_pos h10]
  calc |(roundHalfEven (x * 10 ^ p) : ℚ) - x * 10 ^ p| / 10 ^ p
      ≤ (1 / 2) / 10 ^ p := by
        gcongr
        exact abs_roundHalfEven_sub_le (x * 10 ^ p)
    _ = 1 / (2 * 10 ^ p) := by ring

/-- C1 (amended): on every monthly output line with at least one non-missing
printed value, the total/average column as printed and re-parsed equals the
sum (volumetric units) or mean (otherwise) of the printed per-month values up
to the rounding of the total column itself: the difference is at most half a
unit in the total column's last printed decimal place. -/
theorem printedTotal_reduce_bound (L : MonthLine)
    (h : (printedNonMissing L).length ≠ 0) :
    |printedTotal L - specLineReduce L| ≤ 1 / (2 * 10 ^ totalPrec L) := by
  have hEq : getLineTotal L = specLineReduce L := by
    unfold getLineTotal specLineReduce
    rw [if_neg h]
  unfold printedTotal
  rw [hEq]
  exact abs_fmtPrec_sub_le (totalPrec L) (specLineReduce L)

/-- Witness for C1 (amended), at the concrete line `c1Line`: three non-missing
values, and |0.33 - 1/3| ≤ 1/200. -/
theorem printedTotal_reduce_bound_witness :
    (printedNonMissing c1Line).length ≠ 0 ∧
    |printedTotal c1Line - specLineReduce c1Line| ≤ 1 / (2 * 10 ^ totalPrec c1Line) :=
  ⟨by rw [printedNonMissing_c1]; norm_num,
   printedTotal_reduce_bound c1Line (by rw [printedNonMissing_c1]; norm_num)⟩

/-! ## Monthly time-series reader (`read_time_series_list2`) -/

/-- `read_time_series_list2` lines 475-482: map the header year-type string to
a `YearType`.  The source maps "CAL" and the blank string to `WATER` (not
calendar) and raises `ValueError("Unknown year type ...")` for anything else,
including "CYR". -/
def parseYearTypes (yeartypes : String) : Except PyErr YearType :=
  if pyUpper yeartypes = "CAL" ∨ pyUpper yeartypes = "" then Except.ok YearType.water
  else if pyUpper yeartypes = "WYR" then Except.ok YearType.water
  else if pyUpper yeartypes = "IYR" then Except.ok YearType.novToOct
  else Except.error PyErr.valueError

/-- Parsed fields of the main header line: start month, start year, end month,
end year, units, year-type string. -/
structure SmHeader where
  m1 : Int
  y1 : Int
  m2 : Int
  y2 : Int
  units : String
  yearTypeStr : String
deriving Repr, DecidableEq

/-- `read_time_series_list2` lines 436-471: parse the main header line with
`StringUtil.fixed_read`, switching to the alternate layout
`"i3x1i4x5i5x1i4s5s5"` when character 3 is `/` (known malformed variant),
else `"i5x1i4x5i5x1i4s5s5"`.  `none` models an exception: a line shorter than
4 characters raises `IndexError` on `iline[3]`, and a non-numeric month/year
field raises inside `fixed_read`. -/
def parseHeaderLine (iline : String) : Option SmHeader :=
  let cs := iline.toList
  match cs[3]? with
  | none => none
  | some c3 =>
      if c3 = '/' then
        match intField cs 0 3, intField cs 4 8, intField cs 13 18, intField cs 19 23 with
        | some m1, some y1, some m2, some y2 =>
            some ⟨m1, y1, m2, y2, pyStrip (strField cs 23 28), pyStrip (strField cs 28 33)⟩
        | _, _, _, _ => none
      else
        match intField cs 0 5, intField cs 6 10, intField cs 15 20, intField cs 21 25 with
        | some m1, some y1, some m2, some y2 =>
            some ⟨m1, y1, m2, y2, pyStrip (strField cs 25 30), pyStrip (strField cs 30 35)⟩
        | _, _, _, _ => none

/-- RTi month-precision `DateTime`: add one month. -/
def addMonth (d : Int × Int) : Int × Int :=
  if d.2 + 1 > 12 then (d.1 + 1, 1) else (d.1, d.2 + 1)

/-- Months since year 0, for comparing month-precision dates. -/
def monthsAbs (d : Int × Int) : Int := 12 * d.1 + (d.2 - 1)

/-- The slice of the RTi `MonthTS` state driven by the reader: identifier
location, description, units, allocated period and the stored values.
`setDataValue` stores only when the date lies inside the allocated period;
out-of-period sets are ignored by `MonthTS`. -/
structure MonthTSModel where
  locId : String
  descr : String
  units : String
  date1 : Int × Int
  date2 : Int × Int
  data : (Int × Int) → Option ℚ

/-- RTi `MonthTS.set_data_value`. -/
def setDataValue (ts : MonthTSModel) (d : Int × Int) (v : ℚ) : MonthTSModel :=
  if monthsAbs ts.date1 ≤ monthsAbs d ∧ monthsAbs d ≤ monthsAbs ts.date2 then
    { ts with data := fun x => if x = d then some v else ts.data x }
  else ts

/-- RTi `MonthTS.get_data_value` restricted to what the claims inspect. -/
def tsLookup (ts : MonthTSModel) (d : Int × Int) : Option ℚ := ts.data d

/-- Lines 829-834: the twelve `set_data_value` calls walking forward one month
at a time from the record's start date. -/
def setValues (ts : MonthTSModel) (d : Int × Int) (vals : List ℚ) : MonthTSModel :=
  match vals with
  | [] => ts
  | v :: rest => setValues (setDataValue ts d v) (addMonth d) rest

/-- Lines 803-814: the start date of a monthly record: for a standard series
with a non-calendar year type the year is the record year minus one, and the
month is always the header start month `m1`. -/
def dataLineStartDate (standardTs : Bool) (yeartype : YearType) (m1 currentYear : Int) :
    Int × Int :=
  if standardTs ∧ yeartype ≠ YearType.calendar then (currentYear - 1, m1)
  else (currentYear, m1)

/-- The dates visited by `setValues` for an n-value record. -/
def monthSeq (d : Int × Int) : Nat → List (Int × Int)
  | 0 => []
  | n + 1 => d :: monthSeq (addMonth d) n

/-- `setValues` writes only at the dates of `monthSeq`. -/
theorem setValues_only_monthSeq (vals : List ℚ) :
    ∀ (ts : MonthTSModel) (d x : Int × Int), x ∉ monthSeq d vals.length →
      (setValues ts d vals).data x = ts.data x := by
  induction vals with
  | nil => intro ts d x _; rfl
  | cons v rest ih =>
      intro ts d x hx
      simp only [monthSeq, List.length_cons, List.mem_cons, not_or] at hx
      rw [setValues, ih (setDataValue ts d v) (addMonth d) x hx.2]
      unfold setDataValue
      split_ifs with h
      · simp only [if_neg hx.1]
      · rfl

/-- `str(date_header)` for a month-precision `DateTime` ("YYYY-MM") and
Python `str(None)`. -/
def dateHeaderStr : Option (Int × Int) → String
  | none => "None"
  | some d =>
      (if d.1 < 10 then "000" ++ toString d.1
       else if d.1 < 100 then "00" ++ toString d.1
       else if d.1 < 1000 then "0" ++ toString d.1
       else toString d.1) ++ "-" ++
      (if d.2 < 10 then "0" ++ toString d.2 else toString d.2)

/-- The warning message built by the blanket exception handler of
`read_time_series_list2` (lines 839-841), for a monthly file
(`file_interval_string = "Month"`).  Note that the full file path is not part
of the message. -/
def mkReadErrMsg (linePos : Nat) (d1 d2 : Option (Int × Int)) (units iline : String) :
    String :=
  "Error reading file near line " ++ toString (linePos + 1) ++
  " header indicates interval Month, period " ++ dateHeaderStr d1 ++ " to " ++
  dateHeaderStr d2 ++ ", units =\"" ++ units ++ "\" line: " ++ iline

/-- Context assembled from the parsed header before the data loop. -/
structure ReaderCtx where
  fullFilename : String
  reqId : Option String
  reqDate1 : Option (Int × Int)
  reqDate2 : Option (Int × Int)
  readData : Bool
  m1 : Int
  y1 : Int
  m2 : Int
  y2 : Int
  units : String
  yeartype : YearType
  standardTs : Bool
  initYear : Int
  d1Header : Int × Int
  d2Header : Int × Int

/-- Mutable state of the data loop. -/
structure ReaderSt where
  tslist : Option (List MonthTSModel)
  numts : Nat
  curIdx : Nat
  singleTs : Bool
  reqIdFound : Bool
  dataLineCount : Nat
  reqTs : MonthTSModel

/-- Outcome of processing one data line: continue the loop or `break`. -/
inductive LineOutcome
  | next (st : ReaderSt)
  | stop (st : ReaderSt)

/-- The monthly data-line value fields: twelve 8-wide doubles starting at
character 17 (`fixed_read2` with format `i5 s12 d8*12`, lines 507-516);
`none` models the exception raised on a non-numeric field. -/
def parseValsFrom (cs : List Char) (start : Nat) : Nat → Option (List ℚ)
  | 0 => some []
  | n + 1 =>
      match ratField cs start (start + 8), parseValsFrom cs (start + 8) n with
      | some v, some rest => some (v :: rest)
      | _, _ => none

/-- Lines 574-598: single-series detection from the first two data lines:
years from characters [0:5) (blank means 0), identifiers from [5:17); the file
holds a single series when the identifiers agree and the years differ.
`none` models a `ValueError` from `int(...)` on a garbled year field. -/
def singleTsDetect (l1 l2 : String) : Option Bool :=
  let y1s := pyStrip (pySlice l1 0 5)
  let y2s := pyStrip (pySlice l2 0 5)
  match (if y1s = "" then some 0 else pyInt y1s), (if y2s = "" then some 0 else pyInt y2s) with
  | some a, some b =>
      some (pyStrip (pySlice l1 5 17) = pyStrip (pySlice l2 5 17) ∧ a ≠ b)
  | _, _ => none

/-- The positional fill of a data line (lines 784-835): wrap the station
index, pick the current series, compute the record start date, stop when past
the requested end date, and store the twelve values when data is read. -/
def fillAndAdvance (ctx : ReaderCtx) (st : ReaderSt) (linePos : Nat) (iline : String)
    (currentYear : Int) (vals : List ℚ) : Except String LineOutcome :=
  let curIdx := if st.curIdx ≥ st.numts then 0 else st.curIdx
  let startDate := dataLineStartDate ctx.standardTs ctx.yeartype ctx.m1 currentYear
  if ¬ st.reqIdFound then
    match st.tslist with
    | none =>
        -- `tslist[current_ts_index]` with tslist = None: TypeError, caught by
        -- the blanket handler
        Except.error (mkReadErrMsg linePos (some ctx.d1Header) (some ctx.d2Header)
          ctx.units iline)
    | some ls =>
        match ls[curIdx]? with
        | none =>
            Except.error (mkReadErrMsg linePos (some ctx.d1Header) (some ctx.d2Header)
              ctx.units iline)
        | some currentTs =>
            match ctx.reqDate2 with
            | some rd2 =>
                if monthsAbs startDate > monthsAbs rd2 then Except.ok (LineOutcome.stop st)
                else
                  let currentTs := if ctx.readData then setValues currentTs startDate vals
                                   else currentTs
                  Except.ok (LineOutcome.next
                    { st with tslist := some (ls.set curIdx currentTs), curIdx := curIdx + 1 })
            | none =>
                let currentTs := if ctx.readData then setValues currentTs startDate vals
                                 else currentTs
                Except.ok (LineOutcome.next
                  { st with tslist := some (ls.set curIdx currentTs), curIdx := curIdx + 1 })
  else
    match ctx.reqDate2 with
    | some rd2 =>
        if monthsAbs startDate > monthsAbs rd2 then Except.ok (LineOutcome.stop st)
        else
          let reqTs := if ctx.readData then setValues st.reqTs startDate vals else st.reqTs
          Except.ok (LineOutcome.next { st with reqTs := reqTs, curIdx := curIdx + 1 })
    | none =>
        let reqTs := if ctx.readData then setValues st.reqTs startDate vals else st.reqTs
        Except.ok (LineOutcome.next { st with reqTs := reqTs, curIdx := curIdx + 1 })

/-- Processing of one data line (lines 613-835): comment lines are not
counted, the line is counted then a blank line is skipped, a requested
identifier filters non-matching lines unless in single-series mode, the line
is parsed with `fixed_read2`, a first-period line establishes a series, and
the values are filled positionally.  When an identifier was requested, the
establishment code reaches `ident.set_location(full_location=locid)` at line
742 with the local `locid` never assigned (it is only assigned when no id is
requested, lines 669-677): `UnboundLocalError`, caught by the blanket handler. -/
def processLine (ctx : ReaderCtx) (st : ReaderSt) (linePos : Nat) (iline : String) :
    Except String LineOutcome :=
  if pyStarts iline "#" then Except.ok (LineOutcome.next st)
  else
    let st := { st with dataLineCount := st.dataLineCount + 1 }
    if iline.toList.isEmpty then Except.ok (LineOutcome.next st)
    else
      let cs := iline.toList
      let id := pyStrip (strField cs 5 17)
      let skip : Bool :=
        match ctx.reqId with
        | some rid => ¬ st.singleTs ∧ pyUpper id ≠ pyUpper rid
        | none => false
      if skip then Except.ok (LineOutcome.next st)
      else
        match (if ctx.standardTs then intField cs 0 5 else some 0),
              parseValsFrom cs 17 12 with
        | some yr, some vals =>
            let currentYear := if ctx.standardTs then yr else 0
            let locid := pyStrip (strField cs 5 17)
            if currentYear = ctx.initYear then
              match ctx.reqId with
              | none =>
                  let dates : (Int × Int) × (Int × Int) :=
                    match ctx.reqDate1, ctx.reqDate2 with
                    | some rd1, some rd2 => (rd1, rd2)
                    | _, _ => ((ctx.y1, ctx.m1), (ctx.y2, ctx.m2))
                  let ts : MonthTSModel :=
                    { locId := locid, descr := locid, units := ctx.units,
                      date1 := dates.1, date2 := dates.2, data := fun _ => none }
                  let st := { st with tslist := some (st.tslist.getD [] ++ [ts]),
                                      numts := st.numts + 1 }
                  fillAndAdvance ctx st linePos iline currentYear vals
              | some _ =>
                  -- line 742: UnboundLocalError on `locid`
                  Except.error (mkReadErrMsg linePos (some ctx.d1Header)
                    (some ctx.d2Header) ctx.units iline)
            else
              if ¬ ctx.readData then Except.ok (LineOutcome.stop st)
              else fillAndAdvance ctx st linePos iline currentYear vals
        | _, _ =>
            Except.error (mkReadErrMsg linePos (some ctx.d1Header) (some ctx.d2Header)
              ctx.units iline)

/-- The data-line loop of `read_time_series_list2` (lines 552-837).  While no
data line has been processed, a non-comment line triggers the read of a second
line for single-series detection; the source then processes the first line in
the same iteration and the buffered second line in the next one, modelled here
by processing both in sequence.  `remaining` holds the unread lines and
`linePos` is the 0-based index of the last consumed line. -/
def readerLoop (ctx : ReaderCtx) :
    List String → Nat → ReaderSt → Except String (Option (List MonthTSModel))
  | remaining, linePos, st =>
    if st.dataLineCount = 0 then
      match remaining with
      | [] => Except.ok st.tslist
      | l1 :: rest1 =>
          if pyStarts l1 "#" then readerLoop ctx rest1 (linePos + 1) st
          else
            match rest1 with
            | [] => Except.ok st.tslist
            | l2 :: rest2 =>
                match singleTsDetect l1 l2 with
                | none =>
                    Except.error (mkReadErrMsg (linePos + 2) (some ctx.d1Header)
                      (some ctx.d2Header) ctx.units l1)
                | some single =>
                    let st := { st with singleTs := single || st.singleTs }
                    -- while the first line is processed, `line_pos` already
                    -- points at the buffered second line
                    match processLine ctx st (linePos + 2) l1 with
                    | Except.error e => Except.error e
                    | Except.ok (LineOutcome.stop st1) => Except.ok st1.tslist
                    | Except.ok (LineOutcome.next st1) =>
                        match processLine ctx st1 (linePos + 2) l2 with
                        | Except.error e => Except.error e
                        | Except.ok (LineOutcome.stop st2) => Except.ok st2.tslist
                        | Except.ok (LineOutcome.next st2) =>
                            readerLoop ctx rest2 (linePos + 2) st2
    else
      match remaining with
      | [] => Except.ok st.tslist
      | l :: rest =>
          match processLine ctx st (linePos + 1) l with
          | Except.error e => Except.error e
          | Except.ok (LineOutcome.stop st1) => Except.ok st1.tslist
          | Except.ok (LineOutcome.next st1) => readerLoop ctx rest (linePos + 1) st1

/-- The comment-skip loop over the file head (lines 421-426): returns the
0-based index and content of the main header candidate line; if every line is
a comment the scan stops at the last line. -/
def headerScan : List String → Nat → Nat × String
  | [], i => (i, "")
  | [l], i => (i, l)
  | l :: rest, i => if pyStarts l "#" then headerScan rest (i + 1) else (i, l)

/-- `StateMod_TS.read_time_series_list2` for a monthly-interval file.  (An
XOP filename dispatches to `read_x_time_series_list` before any of this code
runs, and the daily branch differs only in field layouts; the claims concern
the monthly path.)  `Except.error msg` models the blanket handler at lines
838-843 logging `msg` and returning `None`; `Except.ok none` is a `None`
result without exception; `Except.ok (some l)` is a returned series list. -/
def readTimeSeriesList2Month (reqId : Option String) (fullFilename : String)
    (lines : List String) (reqDate1 reqDate2 : Option (Int × Int)) (readData : Bool) :
    Except String (Option (List MonthTSModel)) :=
  if lines.isEmpty then Except.ok none
  else
    let hs := headerScan lines 0
    match parseHeaderLine hs.2 with
    | none => Except.error (mkReadErrMsg hs.1 none none "" hs.2)
    | some hdr =>
        match parseYearTypes hdr.yearTypeStr with
        | Except.error _ =>
            -- ValueError("Unknown year type ..."), raised after the header
            -- dates and units have been assigned
            Except.error (mkReadErrMsg hs.1 (some (hdr.y1, hdr.m1))
              (some (hdr.y2, hdr.m2)) hdr.units hs.2)
        | Except.ok yt =>
            let standardTs := hdr.y1 ≠ 0
            let y2 := if hdr.y1 = 0 ∧ hdr.m2 < hdr.m1 then 1 else hdr.y2
            let initYear :=
              if hdr.y1 = 0 then 0
              else if hdr.m2 < hdr.m1 then hdr.y1 + 1 else hdr.y1
            let ctx : ReaderCtx :=
              { fullFilename := fullFilename, reqId := reqId, reqDate1 := reqDate1,
                reqDate2 := reqDate2, readData := readData, m1 := hdr.m1, y1 := hdr.y1,
                m2 := hdr.m2, y2 := y2, units := hdr.units, yeartype := yt,
                standardTs := standardTs, initYear := initYear,
                d1Header := (hdr.y1, hdr.m1), d2Header := (hdr.y2, hdr.m2) }
            let st0 : ReaderSt :=
              { tslist := none, numts := 0, curIdx := 0, singleTs := false,
                reqIdFound := false, dataLineCount := 0,
                reqTs := { locId := reqId.getD "", descr := "", units := "",
                           date1 := (0, 1), date2 := (0, 1), data := fun _ => none } }
            readerLoop ctx (lines.drop (hs.1 + 1)) hs.1 st0

/-- Is the result an exception path? -/
def excIsErr {ε α : Type} : Except ε α → Bool
  | Except.error _ => true
  | Except.ok _ => false

/-- The message of an error result ("" for a success). -/
def errMsgOf {α : Type} : Except String α → String
  | Except.error m => m
  | Except.ok _ => ""

/-- The single series of a successful single-series read result. -/
def firstSeriesOf : Except String (Option (List MonthTSModel)) → Option MonthTSModel
  | Except.ok (some (t :: _)) => some t
  | _ => none

/-- Number of series of a successful read result. -/
def seriesCount : Except String (Option (List MonthTSModel)) → Option Nat
  | Except.ok (some l) => some l.length
  | _ => none

/-! ## Substring lemmas for the reader error message -/

/-- A list starts with itself followed by anything. -/
theorem startsWithL_self_append (pat rest : List Char) :
    startsWithL pat (pat ++ rest) = true := by
  induction pat with
  | nil => rfl
  | cons c cs ih => simp [startsWithL, ih]

/-- A pattern that starts a list also starts any extension of it. -/
theorem startsWithL_append_of (pat : List Char) :
    ∀ (x y : List Char), startsWithL pat x = true → startsWithL pat (x ++ y) = true := by
  induction pat with
  | nil => intro x y _; simp [startsWithL]
  | cons p ps ih =>
      intro x y h
      cases x with
      | nil => simp [startsWithL] at h
      | cons a t =>
          simp only [startsWithL, Bool.and_eq_true, decide_eq_true_eq] at h
          simp only [List.cons_append, startsWithL, Bool.and_eq_true, decide_eq_true_eq]
          exact ⟨h.1, ih t y h.2⟩

/-- Containment survives prepending. -/
theorem containsL_append_right (pre pat hay : List Char) (h : containsL pat hay = true) :
    containsL pat (pre ++ hay) = true := by
  induction pre with
  | nil => simpa using h
  | cons c cs ih => simp [containsL, ih]

/-- A list contains its own head run. -/
theorem containsL_self_append (pat rest : List Char) :
    containsL pat (pat ++ rest) = true := by
  cases pat with
  | nil =>
      cases rest with
      | nil => rfl
      | cons c t => simp [containsL, startsWithL]
  | cons c cs =>
      simp [containsL, startsWithL, startsWithL_self_append]

/-- Containment survives appending. -/
theorem containsL_append_left (pat : List Char) :
    ∀ (h1 h2 : List Char), containsL pat h1 = true → containsL pat (h1 ++ h2) = true := by
  intro h1
  induction h1 with
  | nil =>
      intro h2 h
      simp only [containsL, List.isEmpty_iff] at h
      subst h
      cases h2 with
      | nil => rfl
      | cons c t => simp [containsL, startsWithL]
  | cons c t ih =>
      intro h2 h
      simp only [containsL, Bool.or_eq_true] at h ⊢
      rcases h with h | h
      · exact Or.inl (startsWithL_append_of pat (c :: t) h2 h)
      · exact Or.inr (ih h2 h)

/-- `(s ++ t).toList` distributes. -/
theorem toList_append (s t : String) : (s ++ t).toList = s.toList ++ t.toList := rfl

/-! ## Concrete monthly files for the reader claims -/

/-- Water-year header: months 10/1978 to 9/1980, units AF, year type WYR. -/
def c3Header : String := "   10 1978         9 1980   AF  WYR"

/-- A record labeled 1979 for station "StationA" with values 101..112. -/
def c3L1 : String :=
  " 1979StationA         101     102     103     104     105     106     107     108     109     110     111     112"

/-- The context `read_time_series_list2` assembles from `c3Header`
(start 10/1978, end 9/1980, water year, standard series, initial year 1979). -/
def c3Ctx : ReaderCtx :=
  { fullFilename := "rgt.stm", reqId := none, reqDate1 := none, reqDate2 := none,
    readData := true, m1 := 10, y1 := 1978, m2 := 9, y2 := 1980, units := "AF",
    yeartype := YearType.water, standardTs := true, initYear := 1979,
    d1Header := (1978, 10), d2Header := (1980, 9) }

/-- The initial loop state built by `read_time_series_list2`. -/
def mkSt0 (reqId : Option String) : ReaderSt :=
  { tslist := none, numts := 0, curIdx := 0, singleTs := false, reqIdFound := false,
    dataLineCount := 0,
    reqTs := { locId := reqId.getD "", descr := "", units := "", date1 := (0, 1),
               date2 := (0, 1), data := fun _ => none } }

/-- The loop state after single-series detection has fired. -/
def mkSt1 (reqId : Option String) : ReaderSt := { mkSt0 reqId with singleTs := true }

/-- The series established and filled by processing the 1979 record. -/
def c3LineTs : Option MonthTSModel :=
  match processLine c3Ctx (mkSt1 none) 1 c3L1 with
  | Except.ok (LineOutcome.next st) =>
      match st.tslist with
      | some (t :: _) => some t
      | _ => none
  | _ => none

/-- C3: water-year shift on reading.  The header year type WYR parses to the
water year type; for a standard series with a non-calendar year type a record
labeled `y` is placed starting at month `m1` of year `y - 1`, so with start
month October a 1979 record covers 1978-10 .. 1979-09; concretely, processing
the 1979 record of a 10/1978-9/1980 WYR file stores October-December into
calendar 1978 and January-September into calendar 1979. -/
theorem c3_water_year_shift :
    parseHeaderLine c3Header = some ⟨10, 1978, 9, 1980, "AF", "WYR"⟩ ∧
    parseYearTypes "WYR" = Except.ok YearType.water ∧
    (∀ y : Int, dataLineStartDate true YearType.water 10 y = (y - 1, 10)) ∧
    (∀ y : Int, monthSeq (y - 1, 10) 12 =
      [(y - 1, 10), (y - 1, 11), (y - 1, 12), (y, 1), (y, 2), (y, 3), (y, 4), (y, 5),
       (y, 6), (y, 7), (y, 8), (y, 9)]) ∧
    readTimeSeriesList2Month none "rgt.stm" [c3Header, c3L1] none none true =
      readerLoop c3Ctx [c3L1] 0 (mkSt0 none) ∧
    c3LineTs.map (fun t => t.locId) = some "StationA" ∧
    c3LineTs.map (fun t => (t.date1, t.date2)) = some ((1978, 10), (1980, 9)) ∧
    c3LineTs.bind (fun t => tsLookup t (1978, 10)) = some ((101 : ℕ) : ℚ) ∧
    c3LineTs.bind (fun t => tsLookup t (1978, 11)) = some ((102 : ℕ) : ℚ) ∧
    c3LineTs.bind (fun t => tsLookup t (1978, 12)) = some ((103 : ℕ) : ℚ) ∧
    c3LineTs.bind (fun t => tsLookup t (1979, 1)) = some ((104 : ℕ) : ℚ) ∧
    c3LineTs.bind (fun t => tsLookup t (1979, 9)) = some ((112 : ℕ) : ℚ) ∧
    c3LineTs.bind (fun t => tsLookup t (1978, 9)) = none ∧
    c3LineTs.bind (fun t => tsLookup t (1979, 10)) = none := by
  refine ⟨rfl, rfl, ?_, ?_, rfl, rfl, rfl, rfl, rfl, rfl, rfl, rfl, rfl, rfl⟩
  · intro y
    simp [dataLineStartDate]
  · intro y
    simp only [monthSeq, addMonth]
    norm_num

/-! ## C2: header year-type interpretation -/

/-- The same period with a blank year-type field. -/
def c2Header : String := "   10 1978         9 1980   AF     "

/-- A calendar-year header (1/1979 to 12/1980) with year type CYR. -/
def c2CyrHeader : String := "    1 1979        12 1980   AF  CYR"

/-- The context assembled from `c2Header`: the blank year type comes out as
WATER, everything else as in the WYR file. -/
def c2Ctx : ReaderCtx := { c3Ctx with fullFilename := "demand.stm" }

/-- The series built by processing the 1979 record under the blank-year-type
header. -/
def c2LineTs : Option MonthTSModel :=
  match processLine c2Ctx (mkSt1 none) 1 c3L1 with
  | Except.ok (LineOutcome.next st) =>
      match st.tslist with
      | some (t :: _) => some t
      | _ => none
  | _ => none

/-- C2 (failing behaviour of the code): the reader maps a blank (and "CAL")
year-type field to the WATER year type, not calendar, so a blank-year-type
record labeled 1979 is stored one year early (October value in 1978, nothing
at 1979-10); and the documented calendar code "CYR" is rejected with
`ValueError("Unknown year type CYR")`, so the read aborts and returns `None`.
"WYR" and "IYR" map as the claim says. -/
theorem c2_year_type_interpretation_bug :
    parseYearTypes "" = Except.ok YearType.water ∧
    parseYearTypes "CAL" = Except.ok YearType.water ∧
    parseYearTypes "WYR" = Except.ok YearType.water ∧
    parseYearTypes "IYR" = Except.ok YearType.novToOct ∧
    parseYearTypes "CYR" = Except.error PyErr.valueError ∧
    parseHeaderLine c2Header = some ⟨10, 1978, 9, 1980, "AF", ""⟩ ∧
    readTimeSeriesList2Month none "demand.stm" [c2Header, c3L1] none none true =
      readerLoop c2Ctx [c3L1] 0 (mkSt0 none) ∧
    c2LineTs.bind (fun t => tsLookup t (1978, 10)) = some ((101 : ℕ) : ℚ) ∧
    c2LineTs.bind (fun t => tsLookup t (1979, 10)) = none ∧
    readTimeSeriesList2Month none "demand.stm" [c2CyrHeader] none none true =
      Except.error (mkReadErrMsg 0 (some (1979, 1)) (some (1980, 12)) "AF" c2CyrHeader) :=
  ⟨rfl, rfl, rfl, rfl, rfl, rfl, rfl, rfl, rfl, rfl⟩

/-! ## C4: requested identifier on a single-series file -/

/-- Calendar-period header (1/1979 to 12/1980) with year type WYR. -/
def c4Header : String := "    1 1979        12 1980   AF  WYR"

/-- Two records of the lone station "X" in years 1979 and 1980. -/
def c4L1 : String :=
  " 1979X                101     102     103     104     105     106     107     108     109     110     111     112"

def c4L2 : String :=
  " 1980X                201     202     203     204     205     206     207     208     209     210     211     212"

def c4Lines : List String := [c4Header, c4L1, c4L2]

/-- The context assembled from `c4Header` with the requested id "Y". -/
def c4CtxReq : ReaderCtx :=
  { fullFilename := "one.stm", reqId := some "Y", reqDate1 := none, reqDate2 := none,
    readData := true, m1 := 1, y1 := 1979, m2 := 12, y2 := 1980, units := "AF",
    yeartype := YearType.water, standardTs := true, initYear := 1979,
    d1Header := (1979, 1), d2Header := (1980, 12) }

/-- The same context with no requested id. -/
def c4CtxNoReq : ReaderCtx := { c4CtxReq with reqId := none }

/-- C4 (failing behaviour of the code): the single-series file is detected
(equal ids, different years), but establishing the requested series evaluates
the local `locid` - assigned only when no id is requested - so the whole read
dies in `UnboundLocalError` and returns `None` with the blanket handler's
message; the same line processed with no requested id succeeds. -/
theorem c4_requested_id_unbound_local :
    singleTsDetect c4L1 c4L2 = some true ∧
    readTimeSeriesList2Month (some "Y") "one.stm" c4Lines none none true =
      Except.error (mkReadErrMsg 2 (some (1979, 1)) (some (1980, 12)) "AF" c4L1) ∧
    excIsErr (processLine c4CtxReq (mkSt1 (some "Y")) 1 c4L1) = true ∧
    excIsErr (processLine c4CtxNoReq (mkSt1 none) 1 c4L1) = false :=
  ⟨rfl, rfl, rfl, rfl⟩

/-! ## C5: malformed main header -/

/-- A malformed header file: the only line has text where the month/year
columns should be. -/
def c5Res : Except String (Option (List MonthTSModel)) :=
  readTimeSeriesList2Month none "demand.stm" ["BADHEADERLINE"] none none true

/-- C5 counterexample: on the malformed single-line file the reader does abort
with a warning and returns no series, but the warning message does not contain
the file path "demand.stm", so the claim that the propagated error identifies
the path fails. -/
theorem c5_no_path_counterexample :
    excIsErr c5Res = true ∧ strHas (errMsgOf c5Res) "demand.stm" = false :=
  ⟨rfl, rfl⟩

/-- C5 (amended): whenever the main header line (the first non-comment line)
fails to parse, the monthly reader aborts: it logs the blanket-handler warning
and returns `None` to its caller (no exception propagates and no time series
is returned).  The warning identifies the 1-based line number, the detected
interval ("Month"), the header period as parsed so far (`None`), and the
units as parsed so far (empty) - but not the file path. -/
theorem readMonth_malformed_header_aborts (reqId : Option String) (fn : String)
    (lines : List String) (rd1 rd2 : Option (Int × Int)) (rd : Bool)
    (hne : lines.isEmpty = false)
    (hbad : parseHeaderLine (headerScan lines 0).2 = none) :
    readTimeSeriesList2Month reqId fn lines rd1 rd2 rd =
      Except.error (mkReadErrMsg (headerScan lines 0).1 none none ""
        (headerScan lines 0).2) ∧
    strHas (mkReadErrMsg (headerScan lines 0).1 none none "" (headerScan lines 0).2)
      (toString ((headerScan lines 0).1 + 1)) = true ∧
    strHas (mkReadErrMsg (headerScan lines 0).1 none none "" (headerScan lines 0).2)
      "interval Month" = true ∧
    strHas (mkReadErrMsg (headerScan lines 0).1 none none "" (headerScan lines 0).2)
      ", period " = true ∧
    strHas (mkReadErrMsg (headerScan lines 0).1 none none "" (headerScan lines 0).2)
      "None" = true ∧
    strHas (mkReadErrMsg (headerScan lines 0).1 none none "" (headerScan lines 0).2)
      "units =\"" = true := by
  refine ⟨?_, ?_, ?_, ?_, ?_, ?_⟩
  · simp only [readTimeSeriesList2Month]
    rw [if_neg (by simp [hne]), hbad]
  · simp only [strHas, mkReadErrMsg, dateHeaderStr, toList_append, List.append_assoc]
    apply containsL_append_right
    exact containsL_self_append _ _
  · simp only [strHas, mkReadErrMsg, dateHeaderStr, toList_append, List.append_assoc]
    apply containsL_append_right
    apply containsL_append_right
    exact containsL_append_left _ _ _ (by decide)
  · simp only [strHas, mkReadErrMsg, dateHeaderStr, toList_append, List.append_assoc]
    apply containsL_append_right
    apply containsL_append_right
    exact containsL_append_left _ _ _ (by decide)
  · simp only [strHas, mkReadErrMsg, dateHeaderStr, toList_append, List.append_assoc]
    apply containsL_append_right
    apply containsL_append_right
    apply containsL_append_right
    exact containsL_self_append _ _
  · simp only [strHas, mkReadErrMsg, dateHeaderStr, toList_append, List.append_assoc]
    apply containsL_append_right
    apply containsL_append_right
    apply containsL_append_right
    apply containsL_append_right
    apply containsL_append_right
    apply containsL_append_right
    exact containsL_append_left _ _ _ (by decide)

/-- Witness for C5 (amended), at the concrete malformed file. -/
theorem readMonth_malformed_header_aborts_witness :
    readTimeSeriesList2Month none "demand.stm" ["BADHEADERLINE"] none none true =
      Except.error (mkReadErrMsg 0 none none "" "BADHEADERLINE") ∧
    strHas (mkReadErrMsg 0 none none "" "BADHEADERLINE") "interval Month" = true := by
  have h := readMonth_malformed_header_aborts none "demand.stm" ["BADHEADERLINE"]
    none none true rfl rfl
  exact ⟨h.1, h.2.2.1⟩

/-! ## Dataset component visibility (`StateMod_DataSet.check_component_visibility`) -/

/-- The component types whose visibility `check_component_visibility` touches
(`StateMod_DataSetComponentType` constants). -/
inductive CompType
  | streamgageNaturalFlowTsDaily
  | demandTsDaily
  | instreamDemandTsDaily
  | wellDemandTsDaily
  | reservoirTargetTsDaily
  | delayTableDailyGroup
  | delayTablesDaily
  | consumptiveWaterRequirementTsDaily
  | streamgageHistoricalTsDaily
  | diversionTsDaily
  | wellPumpingTsDaily
  | reservoirContentTsDaily
  | streamestimateNaturalFlowTsMonthly
  | streamestimateNaturalFlowTsDaily
  | wellGroup
  | wellStations
  | wellRights
  | wellDemandTsMonthly
  | wellPumpingTsMonthly
  | instreamDemandTsMonthly
  | sanjuanRip
  | irrigationPracticeTsYearly
  | consumptiveWaterRequirementTsMonthly
  | statecuStructure
  | network
deriving DecidableEq

/-- The control switches of `StateMod_DataSet` read by
`check_component_visibility`. -/
structure ControlData where
  iday : Int
  iwell : Int
  ireach : Int
  isjrip : Int
  itsfile : Int
  ieffmax : Int
  soild : ℚ

/-- `comp.set_visible(b)` on one component; in an initialized dataset every
component exists, so the `comp is not None` guards pass. -/
def setVis (vis : CompType → Bool) (c : CompType) (b : Bool) : CompType → Bool :=
  fun x => if x = c then b else vis x

/-- `set_visible` over a list of components. -/
def setVisAll (vis : CompType → Bool) (cs : List CompType) (b : Bool) : CompType → Bool :=
  cs.foldl (fun v c => setVis v c b) vis

/-- `StateMod_DataSet.has_well_data(False)` (lines 1381-1402): with
`is_active=False` the code evaluates `StateMod_Util.is_missing(self.iwell)`,
but `StateMod_Util` defines only `isMissing` (StateMod_Util.py line 559), so
the attribute lookup raises `AttributeError`. -/
def hasWellDataFalse (_ds : ControlData) : Except PyErr Bool :=
  Except.error PyErr.attributeError

/-- The rest of `check_component_visibility` after the well-data check (lines
1241-1320), parameterized by the `visibility` local as the well `if`/`else`
leaves it.  The nonzero branches of the well check (line 1238) and of the
SJRIP check (line 1277) assign the misspelled local `visiblity`, so in both
the real `visibility` flag keeps its previous value. -/
def checkVisibilityAfterWell (ds : ControlData) (visibilityIn : Bool)
    (vis : CompType → Bool) : CompType → Bool :=
  -- well components (lines 1241-1262)
  let vis := setVisAll vis [CompType.wellGroup, CompType.wellStations,
    CompType.wellRights, CompType.wellDemandTsMonthly, CompType.wellPumpingTsMonthly]
    visibilityIn
  let vis := if ds.iday ≠ 0 then
      setVisAll vis [CompType.wellDemandTsDaily, CompType.wellPumpingTsDaily] visibilityIn
    else vis
  -- instream demand flag (lines 1266-1272)
  let visibility := if ds.ireach = 2 ∨ ds.ireach = 3 then true else false
  let vis := setVis vis CompType.instreamDemandTsMonthly visibility
  -- SJRIP flag (lines 1276-1282): `visiblity = True` is a typo, so
  -- `visibility` keeps the instream-demand value when isjrip != 0
  let visibility := if ds.isjrip ≠ 0 then visibility else false
  let vis := setVis vis CompType.sanjuanRip visibility
  -- irrigation practice flag (lines 1285-1291)
  let visibility := if ds.itsfile ≠ 0 then true else false
  let vis := setVis vis CompType.irrigationPracticeTsYearly visibility
  -- variable efficiency flag (lines 1295-1305)
  let visibility := if ds.ieffmax ≠ 0 then true else false
  let vis := setVis vis CompType.consumptiveWaterRequirementTsMonthly visibility
  let vis := if ds.iday ≠ 0 then
      setVis vis CompType.consumptiveWaterRequirementTsDaily visibility
    else vis
  -- soil moisture flag (lines 1308-1314)
  let visibility := if ds.soild ≠ 0 then true else false
  let vis := setVis vis CompType.statecuStructure visibility
  -- the network component is always visible (lines 1318-1320)
  setVis vis CompType.network true

/-- `StateMod_DataSet.check_component_visibility` (lines 1179-1320): the first
component of the result is the visibility map when the function stops (the
mutations made so far persist, matching in-place `set_visible` calls), and
the second is the exception that escapes, if any. -/
def checkComponentVisibility (ds : ControlData) (vis0 : CompType → Bool) :
    (CompType → Bool) × Option PyErr :=
  -- daily data set check (lines 1184-1223)
  let visibility := if ds.iday ≠ 0 then true else false
  let vis := setVisAll vis0 [CompType.streamgageNaturalFlowTsDaily,
    CompType.demandTsDaily, CompType.instreamDemandTsDaily, CompType.wellDemandTsDaily,
    CompType.reservoirTargetTsDaily, CompType.delayTableDailyGroup,
    CompType.delayTablesDaily, CompType.consumptiveWaterRequirementTsDaily,
    CompType.streamgageHistoricalTsDaily, CompType.diversionTsDaily,
    CompType.wellPumpingTsDaily, CompType.reservoirContentTsDaily] visibility
  -- stream estimate natural flow components always invisible (lines 1228-1233)
  let vis := setVisAll vis [CompType.streamestimateNaturalFlowTsMonthly,
    CompType.streamestimateNaturalFlowTsDaily] false
  -- well data check (line 1237): evaluating the condition raises
  match hasWellDataFalse ds with
  | Except.error e => (vis, some e)
  | Except.ok w =>
      let visibilityIn := if w then visibility else false
      (checkVisibilityAfterWell ds visibilityIn vis, none)

/-- C7 (failing behaviour of the code): `check_component_visibility` always
dies in `AttributeError` inside `has_well_data(False)` (there is no
`StateMod_Util.is_missing`), before the San Juan block runs, so the
SANJUAN_RIP visibility is left untouched whatever `isjrip` is; and even the
unreachable San Juan assignment, because of the misspelled `visiblity` local,
would make the component visible only when `isjrip != 0` AND `ireach` is 2 or
3 - not "regardless of the other control switches". -/
theorem checkComponentVisibility_sanjuan_bug :
    (∀ (ds : ControlData) (vis0 : CompType → Bool),
      (checkComponentVisibility ds vis0).2 = some PyErr.attributeError) ∧
    (∀ (ds : ControlData) (vis0 : CompType → Bool),
      (checkComponentVisibility ds vis0).1 CompType.sanjuanRip = vis0 CompType.sanjuanRip) ∧
    (∀ (ds : ControlData) (visibilityIn : Bool) (vis : CompType → Bool),
      checkVisibilityAfterWell ds visibilityIn vis CompType.sanjuanRip =
        (decide (ds.isjrip ≠ 0) && decide (ds.ireach = 2 ∨ ds.ireach = 3))) := by
  refine ⟨fun ds vis0 => rfl, fun ds vis0 => rfl, ?_⟩
  intro ds visibilityIn vis
  by_cases hd : ds.iday = 0 <;>
    simp only [checkVisibilityAfterWell, setVisAll, List.foldl, setVis, hd] <;>
    split_ifs <;> simp_all [setVis]

/-! ## Daily writer (`write_time_series_list`, daily branch) -/

/-- Python `str` has no `append` method: the call
`iline_format_buffer.append(...)` at line 1857 raises `AttributeError`. -/
def pyStrAppendMethod (_s _other : String) : Except PyErr String :=
  Except.error PyErr.attributeError

/-- Inputs of one data line of the daily writer branch (lines 1801-1862). -/
structure DailyLineInput where
  reqPrecision : ℤ
  missingDv : ℚ
  tsMissing : ℚ
  year : Int
  month : Int
  locId : String
  ndays : Nat
  dayVal : Nat → ℚ

/-- The 31 values appended to `iline_v` for one daily line (lines 1828-1853):
the series value for days 1..ndays (the `missing_dv` sentinel where missing)
and the zero filler for non-existent days up to 31. -/
def dailyLineVals (inp : DailyLineInput) : List ℚ :=
  (List.range 31).map (fun i =>
    let day := i + 1
    let value := if day ≤ inp.ndays then inp.dayVal day else 0
    if isDataMissing inp.tsMissing value then inp.missingDv else value)

/-- One data line of the daily writer (lines 1813-1862): assemble the format
buffer and values, compute the total precision, then execute
`iline_format_buffer.append(format10_for_precision[precision])` - which
raises `AttributeError` because `iline_format_buffer` is a `str` - so
the line is never formatted or written. -/
def writeDailyLine (inp : DailyLineInput) : Except PyErr String :=
  let initialFormat := "%4d%4d %-12.12s"
  let fmtBuffer := (List.range 31).foldl (fun buf i =>
      let day := i + 1
      let value := if day ≤ inp.ndays then inp.dayVal day else 0
      buf ++ "%#8." ++ toString (getPrecision inp.reqPrecision 8 value).toNat ++ "f")
    initialFormat
  let monthlySum := ((List.range 31).map (fun i =>
      let day := i + 1
      let value := if day ≤ inp.ndays then inp.dayVal day else 0
      if isDataMissing inp.tsMissing value then 0 else value)).sum
  let precision := (getPrecision inp.reqPrecision 10 monthlySum).toNat
  match pyStrAppendMethod fmtBuffer ("%#10." ++ toString precision ++ "f") with
  | Except.error e => Except.error e
  | Except.ok buf => Except.ok buf

/-- C8 (failing behaviour of the code): every daily output line raises
`AttributeError` at the `.append` call on the format string before `out.write`
runs, so `write_time_series_list` never writes a daily data line (the zero
padding in `dailyLineVals` is assembled but never printed); the exception
propagates because the daily branch has no handler. -/
theorem writeDailyLine_always_raises :
    ∀ inp : DailyLineInput, writeDailyLine inp = Except.error PyErr.attributeError :=
  fun _ => rfl

/-! ## XOP reader AVG-block materialization (`read_x_time_series_list`) -/

/-- RTi `YearType.getStartYearOffset`. -/
def ytStartYearOffset : YearType → Int
  | YearType.calendar => 0
  | YearType.water => -1
  | YearType.novToOct => -1

/-- RTi `YearType.getStartMonth`. -/
def ytStartMonth : YearType → Int
  | YearType.calendar => 1
  | YearType.water => 10
  | YearType.novToOct => 11

/-- RTi `YearType.getEndMonth`. -/
def ytEndMonth : YearType → Int
  | YearType.calendar => 12
  | YearType.water => 9
  | YearType.novToOct => 10

/-- Lines 964-973 of `read_x_time_series_list`: infer the year type from the
first column-header month.  The source writes `if JAN:` / `if OCT:` /
`if NOV: ... else: warn; return`, with no `elif`, so the trailing `else`
belongs to the NOV test alone: for every first month other than NOV -
including JAN and OCT, whose just-made assignments are discarded - the
function logs "Do not know how to handle year starting with month ..." and
returns `None`, abandoning the whole read.  `none` models that abort. -/
def xopInferYearType (firstMonth : String) : Option YearType :=
  if pyUpper firstMonth = "NOV" then some YearType.novToOct else none

/-- A property value attached to an XOP time series
(`ts.set_property`, lines 999-1004). -/
inductive XopProp
  | i (n : Int)
  | s (v : String)
deriving DecidableEq

/-- A materialized XOP time series. -/
structure XopSeries where
  tsid : String
  date1Original : Int × Int
  date2Original : Int × Int
  date1 : Int × Int
  date2 : Int × Int
  units : String
  props : List (String × XopProp)
  data : (Int × Int) → Option ℚ

/-- The block state accumulated while scanning one XOP time-series block:
captured header fields, the years of the data rows, and the single shared
data row - `data_array = [[float()]*13]*max_years` makes every row alias one
list, so at AVG time all rows hold the values of the last row parsed. -/
structure XopBlockSt where
  units : String
  id : String
  name : String
  oprType : String
  adminNum : String
  source1 : String
  dest : String
  yearOn : String
  yearOff : String
  firstMonth : String
  yearArray : List Int
  sharedRow : List ℚ
  dataRowCount : Nat

/-- Transfer one data row into the series (lines 1008-1015): the date is
advanced with `add_month(1)` BEFORE each `set_data_value`, and stores outside
the allocated period are ignored by `MonthTS`. -/
def xopFillRow (d1 d2 : Int × Int) (data : (Int × Int) → Option ℚ) (date : Int × Int) :
    List ℚ → ((Int × Int) → Option ℚ)
  | [] => data
  | v :: rest =>
      let dateN := addMonth date
      let dataN := if monthsAbs d1 ≤ monthsAbs dateN ∧ monthsAbs dateN ≤ monthsAbs d2 then
          (fun x => if x = dateN then some v else data x)
        else data
      xopFillRow d1 d2 dataN dateN rest

/-- Transfer all accumulated rows (lines 1009-1015); every row reads the same
aliased `sharedRow`. -/
def xopFillRows (d1 d2 : Int × Int) (yearType : YearType) (row : List ℚ) :
    List Int → ((Int × Int) → Option ℚ) → ((Int × Int) → Option ℚ)
  | [], data => data
  | y :: rest, data =>
      xopFillRows d1 d2 yearType row rest
        (xopFillRow d1 d2 data (y + ytStartYearOffset yearType, ytStartMonth yearType) row)

/-- The AVG-marker branch of `read_x_time_series_list` (lines 957-1015):
materialize one time series from the accumulated block.  `none` models the
`return None` paths: the year-type abort for a non-NOV first month, and the
`int(...)` conversion failures on OprType/YearOn/YearOff (which raise into
the blanket handler, line 1056, also returning `None`). -/
def xopProcessAvgBlock (fullFilename : String) (reqDate1 reqDate2 : Option (Int × Int))
    (readData : Bool) (st : XopBlockSt) : Option XopSeries :=
  let tsid := st.id ++ "." ++ "" ++ "." ++ "Operation" ++ "." ++ "Month" ++ "~" ++
      "StateMod" ++ "~" ++ fullFilename
  match xopInferYearType st.firstMonth with
  | none => none
  | some yearType =>
      match pyInt st.oprType, pyInt st.yearOn, pyInt st.yearOff with
      | some oprType, some yearOn, some yearOff =>
          let y0 := st.yearArray.getD 0 0
          let yLast := st.yearArray.getD (st.dataRowCount - 1) 0
          let date1Original := (y0 + ytStartYearOffset yearType, ytStartMonth yearType)
          let date2Original := (yLast, ytEndMonth yearType)
          let date1 := match reqDate1 with | some d => d | none => date1Original
          let date2 := match reqDate2 with | some d => d | none => date2Original
          let data : (Int × Int) → Option ℚ :=
            if readData then
              xopFillRows date1 date2 yearType (st.sharedRow.take 12)
                (st.yearArray.take st.dataRowCount) (fun _ => none)
            else fun _ => none
          some { tsid := tsid, date1Original := date1Original,
                 date2Original := date2Original, date1 := date1, date2 := date2,
                 units := st.units,
                 props := [("OprType", XopProp.i oprType),
                           ("AdminNum", XopProp.s st.adminNum),
                           ("Source1", XopProp.s st.source1),
                           ("Destination", XopProp.s st.dest),
                           ("YearOn", XopProp.i yearOn),
                           ("YearOff", XopProp.i yearOff)],
                 data := data }
      | _, _, _ => none

/-- A concrete accumulated block, as captured from the header lines of the
XOP example in the source comments. -/
def c9Block (firstMonth : String) : XopBlockSt :=
  { units := "ACFT", id := "01038160_01", name := "Opr_Empire_Store", oprType := "45",
    adminNum := "20226.00000", source1 := "0103816.01", dest := "0103816",
    yearOn := "0", yearOff := "9999", firstMonth := firstMonth,
    yearArray := [1950, 1951], sharedRow := [1, 2, 3, 4, 5, 6, 7, 8, 9, 10, 11, 12, 78],
    dataRowCount := 2 }

/-- C9 (failing behaviour of the code): a block whose column header starts
with JAN or OCT is not materialized - the missing `elif` makes the reader
abandon the whole file with "Do not know how to handle year starting with
month ..." - while a NOV block is materialized with the captured header
metadata attached as properties. -/
theorem xopProcessAvgBlock_jan_aborts :
    xopInferYearType "JAN" = none ∧
    xopInferYearType "OCT" = none ∧
    xopInferYearType "NOV" = some YearType.novToOct ∧
    xopProcessAvgBlock "rgtod.xop" none none true (c9Block "JAN") = none ∧
    xopProcessAvgBlock "rgtod.xop" none none true (c9Block "OCT") = none ∧
    (xopProcessAvgBlock "rgtod.xop" none none true (c9Block "NOV")).isSome = true ∧
    (xopProcessAvgBlock "rgtod.xop" none none true (c9Block "NOV")).map
        (fun t => t.props) =
      some [("OprType", XopProp.i 45), ("AdminNum", XopProp.s "20226.00000"),
            ("Source1", XopProp.s "0103816.01"), ("Destination", XopProp.s "0103816"),
            ("YearOn", XopProp.i 0), ("YearOff", XopProp.i 9999)] ∧
    (xopProcessAvgBlock "rgtod.xop" none none true (c9Block "NOV")).map
        (fun t => t.tsid) =
      some "01038160_01..Operation.Month~StateMod~rgtod.xop" ∧
    (xopProcessAvgBlock "rgtod.xop" none none true (c9Block "NOV")).map
        (fun t => (t.date1, t.date2)) = some ((1949, 11), (1951, 10)) :=
  ⟨rfl, rfl, rfl, rfl, rfl, rfl, rfl, rfl, rfl⟩

end CDSS
